import Mathlib

/-!
Shallow embedding of the BreastCancerPrognosis core
(`services/ai_service.py`, `services/survival_predictor.py`,
`services/insight_engine.py`) and proofs about the specified properties.

Python floats are modeled as rationals (ℚ), Python dicts of strings as
association lists with a `.get`-style total lookup, and the two opaque
pretrained model artifacts as parameters.  `random` draws are passed in as
explicit parameters.  String formatting of numbers (the `message` /
`image_confidence` presentation fields) is represented by carrying the
underlying numeric value where the exact rendered text does not matter to
any claim.
-/

/-- A Python string-to-string dict (questionnaire responses, mapped feature
vectors) as an association list. -/
abbrev Responses := List (String × String)

/-- Embeds Python `d.get(key, dflt)` on a string dict. -/
def rget (d : Responses) (key dflt : String) : String :=
  (d.lookup key).getD dflt

/-- Embeds the Python substring test `needle in hay`. -/
def pyContains (hay needle : String) : Bool :=
  hay.toList.tails.any (fun t => needle.toList.isPrefixOf t)

/-- Round-half-to-even on rationals, the tie-breaking rule used by Python's
built-in `round`. -/
def roundHalfEven (q : ℚ) : ℤ :=
  let f := Int.floor q
  let frac := q - (f : ℚ)
  if frac < 1/2 then f
  else if frac > 1/2 then f + 1
  else if f % 2 = 0 then f else f + 1

/-- Embeds Python `round(q, 1)`: round to one decimal place, ties to even. -/
def roundTo1 (q : ℚ) : ℚ :=
  (roundHalfEven (10 * q) : ℚ) / 10

/-! ## ai_service.py -/

/-- The dict returned by `AIService.predict` / `AIService._mock_prediction`
(the formatted `message` field is omitted; no claim concerns it). -/
structure ClassificationResult where
  result : String
  confidence : ℚ
  prediction_score : ℚ
  is_mock : Bool
  deriving DecidableEq

/-- Embeds the model-loaded path of `AIService.predict`: the scalar model
output `prediction` is interpreted, with `confidence = abs(prediction - 0.5)
+ 0.5` and threshold 0.5 on the label.  No clamping is applied. -/
def aiPredictModel (prediction : ℚ) : ClassificationResult :=
  { result := if prediction > 1/2 then "malignant" else "benign"
    confidence := |prediction - 1/2| + 1/2
    prediction_score := prediction
    is_mock := false }

/-- Embeds `AIService._mock_prediction`; the `random.choice` of the label and
the `random.uniform(0.7, 0.95)` confidence draw are explicit parameters. -/
def aiMockPrediction (choiceMalignant : Bool) (confidence : ℚ) : ClassificationResult :=
  let result := if choiceMalignant then "malignant" else "benign"
  { result := result
    confidence := confidence
    prediction_score := if result = "malignant" then confidence else 1 - confidence
    is_mock := true }

/-! ## survival_predictor.py : feature mapping tables

Each Python dict literal together with its `.get(x, default)` call site is
embedded as one total function (dict keys are distinct string literals, so
`.get` is an if-chain on string equality). -/

/-- Embeds `age_mapping.get(x, '40-49')`. -/
def age_mapping_get (x : String) : String :=
  if x = "Under 30" then "Under 30"
  else if x = "30-39" then "30-39"
  else if x = "40-49" then "40-49"
  else if x = "50-59" then "50-59"
  else if x = "60-69" then "60-69"
  else if x = "70 and above" then "70 and above"
  else "40-49"

/-- Embeds `menopausal_mapping.get(x, 'Pre-menopausal')`. -/
def menopausal_mapping_get (x : String) : String :=
  if x = "Pre-menopausal" then "Pre-menopausal"
  else if x = "Peri-menopausal" then "Peri-menopausal"
  else if x = "Post-menopausal" then "Post-menopausal"
  else "Pre-menopausal"

/-- Embeds `stage_mapping.get(x, 'Stage II')` (used for both the `Stage of
Breast Cancer at Diagnosis` key and the `Tumor Stage` key). -/
def stage_mapping_get (x : String) : String :=
  if x = "Stage I" then "Stage I"
  else if x = "Stage II" then "Stage II"
  else if x = "Stage III" then "Stage III"
  else if x = "Stage IV" then "Stage IV"
  else if x = "Not sure" then "Stage II"
  else "Stage II"

/-- Embeds `tumor_size_mapping.get(x, '2-5 cm')`. -/
def tumor_size_mapping_get (x : String) : String :=
  if x = "Not sure" then "2-5 cm"
  else if x = "Less than 2 cm" then "Less than 2 cm"
  else if x = "2-5 cm" then "2-5 cm"
  else if x = "Greater than 5 cm" then "Greater than 5 cm"
  else "2-5 cm"

/-- Embeds `tumor_type_mapping.get(x, 'Invasive Ductal Carcinoma (IDC)')`. -/
def tumor_type_mapping_get (x : String) : String :=
  if x = "Invasive Ductal Carcinoma (IDC)" then "Invasive Ductal Carcinoma (IDC)"
  else if x = "Invasive Lobular Carcinoma (ILC)" then "Invasive Lobular Carcinoma (ILC)"
  else if x = "Ductal Carcinoma In Situ (DCIS)" then "Ductal Carcinoma In Situ (DCIS)"
  else if x = "Other" then "Other"
  else if x = "Not sure" then "Invasive Ductal Carcinoma (IDC)"
  else "Invasive Ductal Carcinoma (IDC)"

/-- Embeds `tumor_grade_mapping.get(x, 'Grade 2 (Moderately differentiated)')`. -/
def tumor_grade_mapping_get (x : String) : String :=
  if x = "Grade 1 (Well-differentiated)" then "Grade 1 (Well-differentiated)"
  else if x = "Grade 2 (Moderately differentiated)" then "Grade 2 (Moderately differentiated)"
  else if x = "Grade 3 (Poorly differentiated)" then "Grade 3 (Poorly differentiated)"
  else if x = "Not sure" then "Grade 2 (Moderately differentiated)"
  else "Grade 2 (Moderately differentiated)"

/-- Embeds `lymph_mapping.get(x, 'Unknown')`. -/
def lymph_mapping_get (x : String) : String :=
  if x = "Not sure" then "Unknown"
  else if x = "Positive" then "Positive"
  else if x = "Negative" then "Negative"
  else "Unknown"

/-- Embeds `receptor_mapping.get(x, 'Unknown')` (shared by the ER, PR and
HER2 keys). -/
def receptor_mapping_get (x : String) : String :=
  if x = "Positive" then "Positive"
  else if x = "Negative" then "Negative"
  else if x = "Not sure" then "Unknown"
  else "Unknown"

/-- Embeds `diagnosis_mapping.get(x, '1-3 months')`. -/
def diagnosis_mapping_get (x : String) : String :=
  if x = "Less than 1 month" then "Less than 1 month"
  else if x = "1-3 months" then "1-3 months"
  else if x = "3-6 months" then "3-6 months"
  else if x = "Over 6 months" then "Over 6 months"
  else "1-3 months"

/-- Embeds `treatment_mapping.get(x, 'None')`. -/
def treatment_mapping_get (x : String) : String :=
  if x = "Surgery" then "Surgery"
  else if x = "Chemotherapy" then "Chemotherapy"
  else if x = "Radiation therapy" then "Radiation therapy"
  else if x = "Hormone therapy" then "Hormone therapy"
  else if x = "Targeted therapy" then "Targeted therapy"
  else if x = "Not started treatment yet" then "None"
  else "None"

/-- Embeds `duration_mapping.get(x, 'Not applicable')`. -/
def duration_mapping_get (x : String) : String :=
  if x = "Less than 3 months" then "Less than 3 months"
  else if x = "3-6 months" then "3-6 months"
  else if x = "6-12 months" then "6-12 months"
  else if x = "Over 12 months" then "Over 12 months"
  else if x = "Not applicable" then "Not applicable"
  else "Not applicable"

/-- Embeds `status_mapping.get(x, 'Not started')`. -/
def status_mapping_get (x : String) : String :=
  if x = "Ongoing" then "Ongoing"
  else if x = "Completed" then "Completed"
  else if x = "Not started" then "Not started"
  else "Not started"

/-- Embeds `followup_mapping.get(x, 'Every 3 months')`. -/
def followup_mapping_get (x : String) : String :=
  if x = "Every month" then "Every month"
  else if x = "Every 3 months" then "Every 3 months"
  else if x = "Every 6 months" then "Every 6 months"
  else if x = "Yearly" then "Yearly"
  else if x = "Not regularly" then "Not regularly"
  else "Every 3 months"

/-- Embeds `activity_mapping.get(x, 'Moderately active (moderate exercise/sports 3-5 days/week)')`. -/
def activity_mapping_get (x : String) : String :=
  if x = "Sedentary (little or no exercise)" then "Sedentary (little or no exercise)"
  else if x = "Lightly active (light exercise/sports 1-3 days/week)" then "Lightly active (light exercise/sports 1-3 days/week)"
  else if x = "Moderately active (moderate exercise/sports 3-5 days/week)" then "Moderately active (moderate exercise/sports 3-5 days/week)"
  else if x = "Very active (hard exercise/sports 6-7 days a week)" then "Very active (hard exercise/sports 6-7 days a week)"
  else "Moderately active (moderate exercise/sports 3-5 days/week)"

/-- Embeds `bmi_mapping.get(x, '18.5-24.9 (Normal weight)')`. -/
def bmi_mapping_get (x : String) : String :=
  if x = "Below 18.5 (Underweight)" then "Below 18.5 (Underweight)"
  else if x = "18.5-24.9 (Normal weight)" then "18.5-24.9 (Normal weight)"
  else if x = "25-29.9 (Overweight)" then "25-29.9 (Overweight)"
  else if x = "30 and above (Obese)" then "30 and above (Obese)"
  else if x = "Not sure" then "18.5-24.9 (Normal weight)"
  else "18.5-24.9 (Normal weight)"

/-- Embeds `health_mapping.get(x, 'Good')`. -/
def health_mapping_get (x : String) : String :=
  if x = "Excellent" then "Excellent"
  else if x = "Good" then "Good"
  else if x = "Fair" then "Fair"
  else if x = "Poor" then "Poor"
  else "Good"

/-- The exact `Stage of Breast Cancer at Diagnosis (if applicable): ` feature
key (trailing space included), read by `_mock_survival_prediction`. -/
def survivalStageKey : String := "Stage of Breast Cancer at Diagnosis (if applicable): "

/-- Embeds `SurvivalPredictor.map_questionnaire_to_survival_features`: the
`mapped_data` dict, in the order the Python code inserts its 26 keys. -/
def map_questionnaire_to_survival_features (q : Responses) : Responses :=
  [ ("Age (in years): ", age_mapping_get (rget q "age_group" "40-49")),
    ("Ethnicity", rget q "ethnicity" "Unknown"),
    ("Marital Status", rget q "marital_status" "Unknown"),
    ("Family History of Breast Cancer: ", rget q "family_history" "No"),
    ("Menopausal Status: ", menopausal_mapping_get (rget q "menopausal_status" "Pre-menopausal")),
    ("Other Chronic Conditions (check all that apply): ",
      if rget q "other_conditions" "None" = "None" then "None" else rget q "other_conditions" "None"),
    ("Stage of Breast Cancer at Diagnosis (if applicable): ", stage_mapping_get (rget q "cancer_stage" "Not sure")),
    ("Tumor Size: ", tumor_size_mapping_get (rget q "tumor_size" "Not sure")),
    ("Tumor Type: ", tumor_type_mapping_get (rget q "tumor_type" "Not sure")),
    ("Tumor Grade: ", tumor_grade_mapping_get (rget q "tumor_grade" "Not sure")),
    ("Tumor Stage: ", stage_mapping_get (rget q "cancer_stage" "Not sure")),
    ("Lymph Node Status: ", lymph_mapping_get (rget q "lymph_node_status" "Not sure")),
    ("Estrogen Receptor (ER) Status: ", receptor_mapping_get (rget q "er_status" "Not sure")),
    ("Progesterone Receptor (PR) Status: ", receptor_mapping_get (rget q "pr_status" "Not sure")),
    ("Human Epidermal Growth Factor Receptor 2 (HER2) Status: ", receptor_mapping_get (rget q "her2_status" "Not sure")),
    ("Duration from Diagnosis to Commencement of Treatment: ", diagnosis_mapping_get (rget q "diagnosis_to_treatment" "1-3 months")),
    ("Have you experienced a recurrence of breast cancer? ", rget q "recurrence" "No"),
    ("Type of Treatment Received (check all that apply): ", treatment_mapping_get (rget q "treatment_types" "Not started treatment yet")),
    ("Duration of Treatment: ", duration_mapping_get (rget q "treatment_duration" "Not applicable")),
    ("Current Treatment Status: ", status_mapping_get (rget q "treatment_status" "Not started")),
    ("How often do you attend follow-up appointments? ", followup_mapping_get (rget q "follow_up_frequency" "Every 3 months")),
    ("Do you smoke? ", rget q "smoking" "No"),
    ("Do you consume alcohol? ", rget q "alcohol" "No"),
    ("Physical Activity Level: ", activity_mapping_get (rget q "physical_activity" "Moderately active (moderate exercise/sports 3-5 days/week)")),
    ("Body Mass Index (BMI) (if known):", bmi_mapping_get (rget q "bmi_category" "Not sure")),
    ("Current Health Status (self-assessed): ", health_mapping_get (rget q "current_health" "Good")) ]

/-! ## survival_predictor.py : prediction -/

/-- The dict returned by `SurvivalPredictor.predict_survival` or
`_mock_survival_prediction`. -/
structure SurvivalPrediction where
  survival_percentage : ℚ
  confidence : String
  message : String
  is_mock : Bool
  deriving DecidableEq

/-- Embeds `SurvivalPredictor._get_survival_message`. -/
def get_survival_message (survival_percentage : ℚ) : String :=
  if survival_percentage ≥ 80 then "Excellent prognosis with current treatment approaches"
  else if survival_percentage ≥ 60 then "Good prognosis with comprehensive treatment plan"
  else if survival_percentage ≥ 40 then "Moderate prognosis - aggressive treatment recommended"
  else "Requires intensive treatment and close monitoring"

/-- Embeds `stage_adjustments.get(stage, 0)` in `_mock_survival_prediction`. -/
def stage_adjustments_get (stage : String) : ℚ :=
  if stage = "Stage I" then 15
  else if stage = "Stage II" then 0
  else if stage = "Stage III" then -20
  else if stage = "Stage IV" then -40
  else 0

/-- Embeds `SurvivalPredictor._mock_survival_prediction`; the
`random.uniform(-5, 5)` draw is the explicit `noise` parameter.  Note the
returned percentage is the clamped value rounded to one decimal while the
message is chosen from the clamped, unrounded value, exactly as in the
source. -/
def mock_survival_prediction (patient_data : Responses) (noise : ℚ) : SurvivalPrediction :=
  let stage := rget patient_data survivalStageKey "Unknown"
  let survival_percentage := 75 + stage_adjustments_get stage + noise
  let clamped := max 10 (min 95 survival_percentage)
  { survival_percentage := roundTo1 clamped
    confidence := "medium"
    message := get_survival_message clamped
    is_mock := true }

/-- The opaque trained pipeline (pandas encoding + `model.predict`): given
the patient feature dict it either produces the raw regression output or
raises.  The artifact is an out-of-scope opaque service per the spec. -/
abbrev SurvivalModel := Responses → Except String ℚ

/-- Embeds `SurvivalPredictor.predict_survival`: mock when the artifact is
absent (`model_data is None`) or when the encoding/inference pipeline
raises; otherwise clamp the raw output to [0, 100], round the returned
percentage to one decimal, and derive the confidence band and message from
the clamped, unrounded value. -/
def predict_survival (model_data : Option SurvivalModel) (patient_data : Responses)
    (noise : ℚ) : SurvivalPrediction :=
  match model_data with
  | none => mock_survival_prediction patient_data noise
  | some pipeline =>
    match pipeline patient_data with
    | Except.error _ => mock_survival_prediction patient_data noise
    | Except.ok raw =>
      let survival_percentage := max 0 (min 100 raw)
      { survival_percentage := roundTo1 survival_percentage
        confidence := if survival_percentage > 70 then "high"
                      else if survival_percentage > 50 then "medium"
                      else "low"
        message := get_survival_message survival_percentage
        is_mock := false }

/-! ## insight_engine.py -/

/-- The dict built by `InsightEngine._assess_benign_risk` (the
`image_confidence` presentation string is carried as its numeric value). -/
structure RiskAssessment where
  risk_level : String
  risk_color : String
  risk_score : ℚ
  risk_factors : List String
  image_confidence : ℚ
  deriving DecidableEq

/-- The dict built by `InsightEngine._generate_benign_follow_up`. -/
structure FollowUpPlan where
  timeline : String
  recommendations : List String
  deriving DecidableEq

/-- The dict built by `InsightEngine._assess_malignant_clinical`. -/
structure ClinicalInsights where
  stage_estimate : String
  stage_color : String
  image_confidence : ℚ
  next_diagnostics : List String
  deriving DecidableEq

/-- The dict built by `InsightEngine._assess_malignant_prognosis`. -/
structure PrognosisIndicators where
  positive_factors : List String
  survival_percentage : ℚ
  survival_confidence : String
  survival_message : String
  recommendation : String
  deriving DecidableEq

/-- The report dict returned by `InsightEngine.generate_insights`; the
constructor is the `type` discriminator.  The malignant constructor's
`survival_prediction` member is an `Option` because the Python fallback dict
for the malignant branch omits that key while the normal malignant report
carries it. -/
inductive InsightReport where
  | benign (risk_assessment : RiskAssessment)
      (lifestyle_recommendations : List String)
      (follow_up_plan : FollowUpPlan)
      (general_advice : List String)
  | malignant (clinical_insights : ClinicalInsights)
      (treatment_recommendations : List String)
      (prognosis_indicators : PrognosisIndicators)
      (survival_prediction : Option SurvivalPrediction)
      (next_steps : List String)
  deriving DecidableEq

/-- The `survival_prediction` member of a report dict, when present. -/
def InsightReport.survivalPredictionEntry : InsightReport → Option SurvivalPrediction
  | .benign _ _ _ _ => none
  | .malignant _ _ _ sp _ => sp

/-- Embeds `InsightEngine._assess_benign_risk`.  The Python code accumulates
`risk_score` and `risk_factors` through four sequential conditional blocks;
the accumulation is written here as the corresponding sums and list
appends.  `age in age_group` and the two BMI tests are Python substring
tests. -/
def assess_benign_risk (responses : Responses) (image_confidence : ℚ) : RiskAssessment :=
  let fam := rget responses "family_history" ""
  let age_group := rget responses "age_group" ""
  let meno := rget responses "menopausal_status" ""
  let bmi_category := rget responses "bmi_category" ""
  let ageHit := pyContains age_group "50-59" || pyContains age_group "60-69" ||
    pyContains age_group "70 and above"
  let risk_score : ℚ :=
    (if fam = "Yes" then 2 else 0) +
    (if ageHit then 2 else 0) +
    (if meno = "Post-menopausal" then 1 else 0) +
    (if pyContains bmi_category "30 and above" then 1
     else if pyContains bmi_category "25-29.9" then 1/2 else 0)
  let risk_factors :=
    (if fam = "Yes" then ["Family history of breast cancer"] else []) ++
    (if ageHit then ["Age group: " ++ age_group] else []) ++
    (if meno = "Post-menopausal" then ["Post-menopausal status"] else []) ++
    (if pyContains bmi_category "30 and above" then ["Obesity (BMI >= 30)"]
     else if pyContains bmi_category "25-29.9" then ["Overweight (BMI 25-29.9)"] else [])
  let levelColor :=
    if risk_score ≥ 3 then ("High", "red")
    else if risk_score ≥ 2 then ("Moderate", "orange")
    else ("Low", "green")
  { risk_level := levelColor.1
    risk_color := levelColor.2
    risk_score := risk_score
    risk_factors := risk_factors
    image_confidence := image_confidence }

/-- Embeds `InsightEngine._get_benign_lifestyle_recommendations`. -/
def get_benign_lifestyle_recommendations (responses : Responses) : List String :=
  let bmi := rget responses "bmi_category" ""
  let recommendations :=
    (if rget responses "smoking" "" = "Yes" then ["Smoking cessation program recommended"] else []) ++
    (if rget responses "alcohol" "" = "Yes" then ["Limit alcohol to 1 drink per day or less"] else []) ++
    (if pyContains bmi "30 and above" then
      ["Weight management through balanced diet",
       "Regular exercise program (150+ minutes/week)",
       "Consult nutritionist for dietary planning"]
     else if pyContains bmi "25-29.9" then
      ["Moderate weight loss recommended",
       "Increase physical activity level",
       "Focus on whole foods and portion control"]
     else []) ++
    (if rget responses "physical_activity" "" = "Sedentary (little or no exercise)" then
      ["Gradually increase physical activity to 150 minutes/week",
       "Consider walking, swimming, or cycling",
       "Incorporate strength training 2 times/week"]
     else []) ++
    ["Maintain balanced diet rich in fruits and vegetables",
     "Include lean proteins and whole grains in diet",
     "Practice stress management techniques",
     "Get adequate sleep (7-9 hours per night)",
     "Stay hydrated with water throughout the day"]
  if recommendations = [] then ["Maintain current healthy lifestyle habits"] else recommendations

/-- Embeds `InsightEngine._generate_benign_follow_up`. -/
def generate_benign_follow_up (risk_level : String) : FollowUpPlan :=
  if risk_level = "High" then
    { timeline := "6-month follow-up recommended"
      recommendations :=
        ["Clinical breast exam in 6 months",
         "Diagnostic mammogram",
         "Consider breast MRI if dense tissue",
         "Regular self-breast exams monthly"] }
  else if risk_level = "Moderate" then
    { timeline := "Annual screening recommended"
      recommendations :=
        ["Clinical breast exam annually",
         "Screening mammogram yearly",
         "Monthly self-breast exams",
         "Maintain healthy lifestyle"] }
  else
    { timeline := "Routine screening schedule"
      recommendations :=
        ["Annual screening mammogram",
         "Clinical breast exam every 1-2 years",
         "Monthly self-breast exams",
         "Continue healthy habits"] }

/-- Embeds `InsightEngine._assess_malignant_clinical`. -/
def assess_malignant_clinical (responses : Responses) (image_confidence : ℚ) : ClinicalInsights :=
  let tumor_size := rget responses "tumor_size" "Not sure"
  let lymph_nodes := rget responses "lymph_node_status" "Not sure"
  let stagePair :=
    if tumor_size = "Less than 2 cm" ∧ lymph_nodes = "Negative" then
      ("Likely Stage I", "green")
    else if tumor_size = "2-5 cm" ∧ lymph_nodes = "Negative" then
      ("Likely Stage II", "yellow")
    else if lymph_nodes = "Positive" then
      ("Likely Stage II-III", "orange")
    else
      ("Clinical assessment needed", "gray")
  { stage_estimate := stagePair.1
    stage_color := stagePair.2
    image_confidence := image_confidence
    next_diagnostics := ["Confirmatory biopsy", "Breast MRI", "Complete staging workup"] }

/-- Embeds `InsightEngine._get_malignant_treatments`: ordered Python
substring tests `'Stage I' in stage_estimate` / `'Stage II' in
stage_estimate`. -/
def get_malignant_treatments (stage_estimate : String) : List String :=
  if pyContains stage_estimate "Stage I" then
    ["Surgery (Lumpectomy or Mastectomy)",
     "Radiation therapy typically after lumpectomy",
     "Possible chemotherapy based on tumor characteristics",
     "Hormone therapy if hormone receptor positive"]
  else if pyContains stage_estimate "Stage II" then
    ["Surgery (Lumpectomy with radiation or Mastectomy)",
     "Chemotherapy typically recommended",
     "Radiation therapy if lumpectomy performed",
     "Targeted therapy if HER2 positive",
     "Hormone therapy if hormone receptor positive"]
  else
    ["Neoadjuvant chemotherapy to shrink tumor before surgery",
     "Surgery (Mastectomy typically recommended)",
     "Radiation therapy after surgery",
     "Adjuvant systemic therapy",
     "Targeted therapies based on biomarker testing"]

/-- Embeds `InsightEngine._assess_malignant_prognosis`. -/
def assess_malignant_prognosis (responses : Responses)
    (survival_prediction : SurvivalPrediction) : PrognosisIndicators :=
  let age_group := rget responses "age_group" ""
  let positive_factors :=
    (if rget responses "family_history" "" = "No" then ["No family history of breast cancer"] else []) ++
    (if pyContains age_group "30-39" || pyContains age_group "40-49" then
      ["Younger age group (better treatment tolerance)"] else []) ++
    (if rget responses "symptoms_duration" "" = "Less than 1 month" then
      ["Early symptom recognition"] else []) ++
    (if pyContains (rget responses "tumor_size" "") "Less than 2 cm" then
      ["Small tumor size"] else []) ++
    (if rget responses "lymph_node_status" "" = "Negative" then
      ["No lymph node involvement indicated"] else [])
  { positive_factors := positive_factors
    survival_percentage := survival_prediction.survival_percentage
    survival_confidence := survival_prediction.confidence
    survival_message := survival_prediction.message
    recommendation := "Early detection and comprehensive treatment significantly improve outcomes" }

/-- Embeds `InsightEngine._get_fallback_insights`.  The malignant fallback
dict has no `survival_prediction` key, hence `none` there. -/
def get_fallback_insights (prediction_type : String) : InsightReport :=
  if prediction_type = "benign" then
    .benign
      { risk_level := "Moderate"
        risk_color := "orange"
        risk_score := 2
        risk_factors := ["Standard risk assessment"]
        image_confidence := 85/100 }
      ["Maintain healthy lifestyle with balanced diet",
       "Regular exercise (150 minutes/week)",
       "Limit alcohol consumption",
       "Avoid tobacco products",
       "Monthly self-breast exams"]
      { timeline := "Annual screening recommended"
        recommendations := ["Clinical breast exam", "Screening mammogram"] }
      ["Consult with healthcare provider for personalized medical advice",
       "Maintain regular screening schedule",
       "Report any changes in breast tissue promptly"]
  else
    .malignant
      { stage_estimate := "Clinical assessment needed"
        stage_color := "gray"
        image_confidence := 90/100
        next_diagnostics := ["Consult with specialist for complete evaluation"] }
      ["Specialist consultation required for treatment planning"]
      { positive_factors := ["Early detection improves outcomes"]
        survival_percentage := 75
        survival_confidence := "medium"
        survival_message := "Comprehensive evaluation needed for accurate prognosis"
        recommendation := "Comprehensive medical evaluation needed" }
      none
      ["Consult with oncologist", "Complete diagnostic workup", "Multidisciplinary team evaluation"]

/-- The fixed `general_advice` list of the benign report. -/
def benign_general_advice : List String :=
  ["Continue monthly self-breast examinations",
   "Maintain healthy body weight through balanced diet",
   "Engage in regular physical activity (150 minutes/week)",
   "Limit alcohol consumption to 1 drink per day or less",
   "Avoid smoking and secondhand smoke exposure",
   "Report any breast changes to your doctor immediately",
   "Attend all scheduled screening appointments",
   "Consider genetic counseling if strong family history"]

/-- The `next_steps` list of the malignant report; its last element is the
f-string interpolating the predicted survival percentage. -/
def malignant_next_steps (survival_prediction : SurvivalPrediction) : List String :=
  ["Consult with breast surgeon and oncologist",
   "Complete diagnostic imaging (MRI, ultrasound)",
   "Schedule biopsy for confirmation",
   "Multidisciplinary team evaluation",
   "Predicted 5-year survival: " ++ toString survival_prediction.survival_percentage ++ "%"]

/-- The body of the `try` block of `InsightEngine._generate_benign_insights`,
as an exception-returning computation. -/
def benign_insights_attempt (responses : Responses) (image_confidence : ℚ) :
    Except String InsightReport := do
  let risk_assessment := assess_benign_risk responses image_confidence
  let lifestyle_recommendations := get_benign_lifestyle_recommendations responses
  let follow_up_plan := generate_benign_follow_up risk_assessment.risk_level
  pure (.benign risk_assessment lifestyle_recommendations follow_up_plan benign_general_advice)

/-- The body of the `try` block of
`InsightEngine._generate_malignant_insights`, as an exception-returning
computation; `model_data` and `noise` feed the embedded survival
predictor. -/
def malignant_insights_attempt (model_data : Option SurvivalModel) (responses : Responses)
    (image_confidence : ℚ) (noise : ℚ) : Except String InsightReport := do
  let survival_features := map_questionnaire_to_survival_features responses
  let survival_prediction := predict_survival model_data survival_features noise
  let clinical_insights := assess_malignant_clinical responses image_confidence
  let treatment_recommendations := get_malignant_treatments clinical_insights.stage_estimate
  let prognosis_indicators := assess_malignant_prognosis responses survival_prediction
  pure (.malignant clinical_insights treatment_recommendations prognosis_indicators
    (some survival_prediction) (malignant_next_steps survival_prediction))

/-- The `try ... except` boundary of either `_generate_*_insights` branch:
a raised exception is replaced by the fallback report for the branch's
label. -/
def run_branch (attempt : Except String InsightReport) (prediction_type : String) : InsightReport :=
  match attempt with
  | Except.ok report => report
  | Except.error _ => get_fallback_insights prediction_type

/-- Embeds `InsightEngine._generate_benign_insights`. -/
def generate_benign_insights (responses : Responses) (image_confidence : ℚ) : InsightReport :=
  run_branch (benign_insights_attempt responses image_confidence) "benign"

/-- Embeds `InsightEngine._generate_malignant_insights`. -/
def generate_malignant_insights (model_data : Option SurvivalModel) (responses : Responses)
    (image_confidence : ℚ) (noise : ℚ) : InsightReport :=
  run_branch (malignant_insights_attempt model_data responses image_confidence noise) "malignant"

/-- Embeds `InsightEngine.generate_insights`: dispatch on the prediction
type (anything other than `benign` takes the malignant branch). -/
def generate_insights (model_data : Option SurvivalModel) (prediction_type : String)
    (user_responses : Responses) (image_confidence : ℚ) (noise : ℚ) : InsightReport :=
  if prediction_type = "benign" then
    generate_benign_insights user_responses image_confidence
  else
    generate_malignant_insights model_data user_responses image_confidence noise

/-- Well-formedness of a report object, following the spec's data model: the
discriminator-specific assessment fields hold recognized values, the
recommendation lists are non-empty, and a malignant report embeds a
`SurvivalPrediction`. -/
def wellFormedReport : InsightReport → Bool
  | .benign ra lr fp ga =>
    ["High", "Moderate", "Low"].contains ra.risk_level &&
    ["red", "orange", "green"].contains ra.risk_color &&
    !lr.isEmpty && !fp.recommendations.isEmpty && !ga.isEmpty
  | .malignant ci tr _ sp ns =>
    ["Likely Stage I", "Likely Stage II", "Likely Stage II-III",
      "Clinical assessment needed"].contains ci.stage_estimate &&
    !tr.isEmpty && sp.isSome && !ns.isEmpty

/-! ## Auxiliary concrete inputs -/

/-- The Scenario 1 response set from the spec's testable properties. -/
def scenario1Responses : Responses :=
  [("family_history", "Yes"), ("age_group", "60-69"),
   ("menopausal_status", "Post-menopausal"), ("bmi_category", "30 and above (Obese)")]

/-- Modelled from the spec: the documented vocabulary of the `Ethnicity`
feature (the malignant questionnaire's ethnicity options together with the
mapper's `Unknown` default), used only to state that an unrecognized
ethnicity answer is not replaced by a vocabulary value. -/
def ethnicityVocabSpec : List String :=
  ["Hausa", "Yoruba", "Igbo", "Other Nigerian ethnicity", "Other African", "Other", "Unknown"]

/-! ## Helper lemmas -/

theorem roundHalfEven_ge_floor (q : ℚ) : Int.floor q ≤ roundHalfEven q := by
  simp only [roundHalfEven]
  split_ifs <;> omega

theorem roundHalfEven_le_ceil (q : ℚ) : roundHalfEven q ≤ Int.ceil q := by
  have hfc : Int.floor q ≤ Int.ceil q := Int.floor_le_ceil q
  have hle : q ≤ (Int.ceil q : ℚ) := Int.le_ceil q
  have hfl : (Int.floor q : ℚ) ≤ q := Int.floor_le q
  simp only [roundHalfEven]
  split_ifs with h1 h2 h3
  · exact hfc
  · have hlt : (Int.floor q : ℚ) < (Int.ceil q : ℚ) := by linarith
    have h4 : Int.floor q < Int.ceil q := by exact_mod_cast hlt
    omega
  · exact hfc
  · have hge : (1 : ℚ)/2 ≤ q - (Int.floor q : ℚ) := by linarith
    have hlt : (Int.floor q : ℚ) < (Int.ceil q : ℚ) := by linarith
    have h4 : Int.floor q < Int.ceil q := by exact_mod_cast hlt
    omega

theorem roundTo1_bounds (lo hi : ℤ) (q : ℚ) (h1 : (lo : ℚ) / 10 ≤ q) (h2 : q ≤ (hi : ℚ) / 10) :
    (lo : ℚ) / 10 ≤ roundTo1 q ∧ roundTo1 q ≤ (hi : ℚ) / 10 := by
  have hf : lo ≤ Int.floor (10 * q) := Int.le_floor.mpr (by linarith)
  have hc : Int.ceil (10 * q) ≤ hi := Int.ceil_le.mpr (by linarith)
  have g1 := roundHalfEven_ge_floor (10 * q)
  have g2 := roundHalfEven_le_ceil (10 * q)
  have hlo : (lo : ℚ) ≤ (roundHalfEven (10 * q) : ℚ) := by exact_mod_cast le_trans hf g1
  have hhi : (roundHalfEven (10 * q) : ℚ) ≤ (hi : ℚ) := by exact_mod_cast le_trans g2 hc
  unfold roundTo1
  constructor <;> linarith

theorem roundHalfEven_intCast (n : ℤ) : roundHalfEven (n : ℚ) = n := by
  simp only [roundHalfEven, Int.floor_intCast]
  norm_num

theorem roundTo1_intCast (n : ℤ) : roundTo1 (n : ℚ) = n := by
  unfold roundTo1
  rw [show (10 : ℚ) * (n : ℚ) = ((10 * n : ℤ) : ℚ) by push_cast; ring]
  rw [roundHalfEven_intCast]
  push_cast
  ring

/-! ## Claim theorems -/

/-- C8: for every response set, the feature vector produced by
`map_questionnaire_to_survival_features` assigns identical values to the
`Stage of Breast Cancer at Diagnosis (if applicable): ` key and the
`Tumor Stage: ` key, both computed from the `cancer_stage` answer through
the same `stage_mapping` table. -/
theorem c8_stage_keys_agree (q : Responses) :
    rget (map_questionnaire_to_survival_features q)
      "Stage of Breast Cancer at Diagnosis (if applicable): " "" =
    rget (map_questionnaire_to_survival_features q) "Tumor Stage: " "" := by
  rfl

/-- C10: the mock classification result is internally consistent: the
prediction score equals the drawn confidence `c` for a malignant label and
`1 - c` for a benign label, thresholding the score at 0.5 reproduces the
label, and `abs(score - 0.5) + 0.5` recovers the returned confidence, for
every label choice and every confidence draw in [0.7, 0.95]. -/
theorem c10_mock_consistency (choiceMalignant : Bool) (c : ℚ)
    (h1 : 7/10 ≤ c) (h2 : c ≤ 95/100) :
    ((aiMockPrediction choiceMalignant c).prediction_score =
      (if (aiMockPrediction choiceMalignant c).result = "malignant" then c else 1 - c))
    ∧ ((aiMockPrediction choiceMalignant c).prediction_score > 1/2 ↔
      (aiMockPrediction choiceMalignant c).result = "malignant")
    ∧ |(aiMockPrediction choiceMalignant c).prediction_score - 1/2| + 1/2 =
      (aiMockPrediction choiceMalignant c).confidence := by
  cases choiceMalignant with
  | false =>
    have hres : (aiMockPrediction false c).result = "benign" := rfl
    have hscore : (aiMockPrediction false c).prediction_score = 1 - c := rfl
    have hconf : (aiMockPrediction false c).confidence = c := rfl
    refine ⟨?_, ?_, ?_⟩
    · rw [hscore, hres, if_neg (by decide : ¬ ("benign" : String) = "malignant")]
    · rw [hscore, hres]
      constructor
      · intro h; exfalso; linarith
      · intro h; exact absurd h (by decide)
    · rw [hscore, hconf]
      rw [show (1 : ℚ) - c - 1/2 = -(c - 1/2) by ring, abs_neg,
        abs_of_nonneg (by linarith : (0:ℚ) ≤ c - 1/2)]
      ring
  | true =>
    have hres : (aiMockPrediction true c).result = "malignant" := rfl
    have hscore : (aiMockPrediction true c).prediction_score = c := rfl
    have hconf : (aiMockPrediction true c).confidence = c := rfl
    refine ⟨?_, ?_, ?_⟩
    · rw [hscore, hres, if_pos rfl]
    · rw [hscore, hres]
      constructor
      · intro _; rfl
      · intro _; linarith
    · rw [hscore, hconf, abs_of_nonneg (by linarith : (0:ℚ) ≤ c - 1/2)]
      ring

/-- C10 witness: the consistency theorem applied at a malignant draw with
confidence 0.8. -/
theorem c10_mock_consistency_witness :
    (7/10 : ℚ) ≤ 4/5 ∧ (4/5 : ℚ) ≤ 95/100 ∧
    (((aiMockPrediction true (4/5)).prediction_score =
      (if (aiMockPrediction true (4/5)).result = "malignant" then (4/5 : ℚ) else 1 - 4/5))
    ∧ ((aiMockPrediction true (4/5)).prediction_score > 1/2 ↔
      (aiMockPrediction true (4/5)).result = "malignant")
    ∧ |(aiMockPrediction true (4/5)).prediction_score - 1/2| + 1/2 =
      (aiMockPrediction true (4/5)).confidence) :=
  ⟨by norm_num, by norm_num, c10_mock_consistency true (4/5) (by norm_num) (by norm_num)⟩

/-- C9: on the non-mock path (survival model artifact present and its
pipeline succeeding on the mapped features) `generate_insights` is a
deterministic function of (label, responses, image confidence): the mock
noise draw cannot influence the report under either branch. -/
theorem c9_deterministic (pipeline : SurvivalModel) (prediction_type : String)
    (responses : Responses) (conf noise1 noise2 v : ℚ)
    (h : pipeline (map_questionnaire_to_survival_features responses) = Except.ok v) :
    generate_insights (some pipeline) prediction_type responses conf noise1 =
    generate_insights (some pipeline) prediction_type responses conf noise2 := by
  unfold generate_insights
  split
  · rfl
  · unfold generate_malignant_insights malignant_insights_attempt
    simp only [predict_survival, h]

/-- C9 witness: the determinism theorem applied on the malignant branch with
a constant pipeline and two different noise draws. -/
theorem c9_deterministic_witness :
    ((fun _ : Responses => (Except.ok (80 : ℚ) : Except String ℚ))
        (map_questionnaire_to_survival_features []) = Except.ok (80 : ℚ))
    ∧ generate_insights (some (fun _ => Except.ok 80)) "malignant" [] (9/10) 1 =
      generate_insights (some (fun _ => Except.ok 80)) "malignant" [] (9/10) (-2) :=
  ⟨rfl, c9_deterministic (fun _ => Except.ok 80) "malignant" [] (9/10) 1 (-2) 80 rfl⟩

/-- C1 counterexample: with raw classifier output 2, `AIService.predict`
returns confidence 2, outside [0, 1] — no clamping is applied to the
confidence, contrary to the claim's "clamped to their stated bounds
regardless of the raw value the underlying model produces". -/
theorem c1_counterexample :
    (aiPredictModel 2).confidence = 2 ∧ ¬ (aiPredictModel 2).confidence ≤ 1 := by
  have h : (aiPredictModel 2).confidence = |(2 : ℚ) - 1/2| + 1/2 := rfl
  rw [h, abs_of_nonneg (by norm_num : (0:ℚ) ≤ 2 - 1/2)]
  constructor <;> norm_num

/-- C1 (amended): `SurvivalPrediction.survival_percentage` is clamped to its
bounds regardless of the raw model output — to [0, 100] on the model path
and to [10, 95] on the mock path — but `ClassificationResult.confidence` is
not clamped: it equals `abs(p - 0.5) + 0.5`, which lies in [0, 1] only when
the raw output `p` itself lies in [0, 1]. -/
theorem c1_clamping_amended :
    (∀ p : ℚ, 0 ≤ p → p ≤ 1 →
      0 ≤ (aiPredictModel p).confidence ∧ (aiPredictModel p).confidence ≤ 1)
    ∧ (∀ (pipeline : SurvivalModel) (patient : Responses) (raw noise : ℚ),
        pipeline patient = Except.ok raw →
        0 ≤ (predict_survival (some pipeline) patient noise).survival_percentage ∧
        (predict_survival (some pipeline) patient noise).survival_percentage ≤ 100)
    ∧ (∀ (patient : Responses) (noise : ℚ),
        10 ≤ (predict_survival none patient noise).survival_percentage ∧
        (predict_survival none patient noise).survival_percentage ≤ 95) := by
  refine ⟨?_, ?_, ?_⟩
  · intro p hp0 hp1
    have h : (aiPredictModel p).confidence = |p - 1/2| + 1/2 := rfl
    have habs : |p - 1/2| ≤ 1/2 := abs_le.mpr ⟨by linarith, by linarith⟩
    have hnn : (0:ℚ) ≤ |p - 1/2| := abs_nonneg _
    rw [h]
    constructor <;> linarith
  · intro pipeline patient raw noise h
    have hred : (predict_survival (some pipeline) patient noise).survival_percentage =
        roundTo1 (max 0 (min 100 raw)) := by
      simp only [predict_survival, h]
    have hlo : (0:ℚ) ≤ max 0 (min 100 raw) := le_max_left 0 _
    have hhi : max 0 (min 100 raw) ≤ 100 :=
      max_le (by norm_num) (min_le_left 100 raw)
    have hb := roundTo1_bounds 0 1000 (max 0 (min 100 raw))
      (by push_cast; linarith) (by push_cast; linarith)
    rw [hred]
    constructor
    · have := hb.1; push_cast at this; linarith
    · have := hb.2; push_cast at this; linarith
  · intro patient noise
    have hred : (predict_survival none patient noise).survival_percentage =
        roundTo1 (max 10 (min 95 (75 +
          stage_adjustments_get (rget patient survivalStageKey "Unknown") + noise))) := rfl
    have hlo : (10:ℚ) ≤ max 10 (min 95 (75 +
        stage_adjustments_get (rget patient survivalStageKey "Unknown") + noise)) :=
      le_max_left 10 _
    have hhi : max 10 (min 95 (75 +
        stage_adjustments_get (rget patient survivalStageKey "Unknown") + noise)) ≤ 95 :=
      max_le (by norm_num) (min_le_left 95 _)
    have hb := roundTo1_bounds 100 950 (max 10 (min 95 (75 +
        stage_adjustments_get (rget patient survivalStageKey "Unknown") + noise)))
      (by push_cast; linarith) (by push_cast; linarith)
    rw [hred]
    constructor
    · have := hb.1; push_cast at this; linarith
    · have := hb.2; push_cast at this; linarith

/-- C1 witness: the amended theorem applied at raw classifier output 0.5 and
at a survival pipeline returning the out-of-range raw value 150. -/
theorem c1_clamping_amended_witness :
    ((0:ℚ) ≤ 1/2 ∧ (1/2:ℚ) ≤ 1 ∧
      0 ≤ (aiPredictModel (1/2)).confidence ∧ (aiPredictModel (1/2)).confidence ≤ 1)
    ∧ ((fun _ : Responses => (Except.ok (150 : ℚ) : Except String ℚ)) [] = Except.ok (150 : ℚ)
      ∧ 0 ≤ (predict_survival (some (fun _ => Except.ok 150)) [] 0).survival_percentage
      ∧ (predict_survival (some (fun _ => Except.ok 150)) [] 0).survival_percentage ≤ 100) :=
  ⟨⟨by norm_num, by norm_num,
      (c1_clamping_amended.1 (1/2) (by norm_num) (by norm_num)).1,
      (c1_clamping_amended.1 (1/2) (by norm_num) (by norm_num)).2⟩,
    ⟨rfl,
      (c1_clamping_amended.2.1 (fun _ => Except.ok 150) [] 150 0 rfl).1,
      (c1_clamping_amended.2.1 (fun _ => Except.ok 150) [] 150 0 rfl).2⟩⟩

/-- C6: the mock survival prediction equals 75 plus the stage-based
adjustment read from the mapped `Stage of Breast Cancer at Diagnosis`
feature (Stage I: +15, Stage II: 0, Stage III: -20, Stage IV: -40, any
other or absent stage: 0) plus the noise draw, clamped to [10, 95] and
rounded to one decimal, with `is_mock = true`; and a `Not sure` (or absent)
`cancer_stage` answer maps the Stage feature to `Stage II`, whose
adjustment is 0. -/
theorem c6_mock_formula (patient : Responses) (noise : ℚ)
    (h1 : -5 ≤ noise) (h2 : noise ≤ 5) :
    ((predict_survival none patient noise).survival_percentage =
      roundTo1 (max 10 (min 95 (75 +
        (if rget patient survivalStageKey "Unknown" = "Stage I" then (15:ℚ)
         else if rget patient survivalStageKey "Unknown" = "Stage II" then 0
         else if rget patient survivalStageKey "Unknown" = "Stage III" then -20
         else if rget patient survivalStageKey "Unknown" = "Stage IV" then -40
         else 0) + noise)))
      ∧ (predict_survival none patient noise).is_mock = true)
    ∧ (∀ q : Responses, rget q "cancer_stage" "Not sure" = "Not sure" →
        rget (map_questionnaire_to_survival_features q) survivalStageKey "" = "Stage II")
    ∧ stage_adjustments_get "Stage II" = 0 := by
  refine ⟨⟨rfl, rfl⟩, ?_, by decide⟩
  intro q h
  have hred : rget (map_questionnaire_to_survival_features q) survivalStageKey "" =
      stage_mapping_get (rget q "cancer_stage" "Not sure") := rfl
  rw [hred, h]
  decide

/-- C6 witness: the mock-formula theorem applied to an empty patient record
(absent stage) with noise 0. -/
theorem c6_mock_formula_witness :
    (-5 ≤ (0:ℚ)) ∧ ((0:ℚ) ≤ 5) ∧
    (((predict_survival none [] 0).survival_percentage =
      roundTo1 (max 10 (min 95 (75 +
        (if rget [] survivalStageKey "Unknown" = "Stage I" then (15:ℚ)
         else if rget [] survivalStageKey "Unknown" = "Stage II" then 0
         else if rget [] survivalStageKey "Unknown" = "Stage III" then -20
         else if rget [] survivalStageKey "Unknown" = "Stage IV" then -40
         else 0) + 0)))
      ∧ (predict_survival none [] 0).is_mock = true)
    ∧ (∀ q : Responses, rget q "cancer_stage" "Not sure" = "Not sure" →
        rget (map_questionnaire_to_survival_features q) survivalStageKey "" = "Stage II")
    ∧ stage_adjustments_get "Stage II" = 0) :=
  ⟨by norm_num, by norm_num, c6_mock_formula [] 0 (by norm_num) (by norm_num)⟩

/-- C7 counterexample: on the mock fallback path with a `Stage I` feature
and zero noise the returned survival percentage is 90.0 yet the confidence
band is `medium`, not the `high` the claim requires for percentages above
70: `_mock_survival_prediction` hardcodes `medium`. -/
theorem c7_counterexample :
    (predict_survival none [(survivalStageKey, "Stage I")] 0).survival_percentage = 90
    ∧ (predict_survival none [(survivalStageKey, "Stage I")] 0).survival_percentage > 70
    ∧ (predict_survival none [(survivalStageKey, "Stage I")] 0).confidence = "medium"
    ∧ (predict_survival none [(survivalStageKey, "Stage I")] 0).confidence ≠ "high" := by
  have h90 : roundTo1 (90 : ℚ) = 90 := by
    have := roundTo1_intCast 90
    push_cast at this
    exact this
  have hred : (predict_survival none [(survivalStageKey, "Stage I")] 0).survival_percentage =
      roundTo1 (max 10 (min 95 (75 + stage_adjustments_get "Stage I" + 0))) := rfl
  have harg : max (10:ℚ) (min 95 (75 + stage_adjustments_get "Stage I" + 0)) = 90 := by
    have hadj : stage_adjustments_get "Stage I" = 15 := by decide
    rw [hadj]
    norm_num [min_def, max_def]
  refine ⟨?_, ?_, rfl, by decide⟩
  · rw [hred, harg, h90]
  · rw [hred, harg, h90]; norm_num

/-- C7 (amended): the confidence band thresholds (`high` above 70, `medium`
above 50, else `low`) apply only on the real-model path, where they are
computed from the clamped pre-rounding percentage; on the mock fallback
path (artifact absent or pipeline failure) the band is always `medium`. -/
theorem c7_confidence_amended :
    (∀ (pipeline : SurvivalModel) (patient : Responses) (raw noise : ℚ),
      pipeline patient = Except.ok raw →
      (predict_survival (some pipeline) patient noise).confidence =
        (if max 0 (min 100 raw) > 70 then "high"
         else if max 0 (min 100 raw) > 50 then "medium" else "low"))
    ∧ (∀ (patient : Responses) (noise : ℚ),
        (predict_survival none patient noise).confidence = "medium")
    ∧ (∀ (pipeline : SurvivalModel) (patient : Responses) (e : String) (noise : ℚ),
        pipeline patient = Except.error e →
        (predict_survival (some pipeline) patient noise).confidence = "medium") := by
  refine ⟨?_, ?_, ?_⟩
  · intro pipeline patient raw noise h
    simp only [predict_survival, h]
  · intro patient noise
    rfl
  · intro pipeline patient e noise h
    simp only [predict_survival, h]
    rfl

/-- C7 witness: the amended theorem applied to a pipeline returning 80 (band
`high`) and to the artifact-absent mock path. -/
theorem c7_confidence_amended_witness :
    ((fun _ : Responses => (Except.ok (80 : ℚ) : Except String ℚ)) [] = Except.ok (80 : ℚ)
      ∧ (predict_survival (some (fun _ => Except.ok 80)) [] 0).confidence =
        (if max 0 (min 100 (80:ℚ)) > 70 then "high"
         else if max 0 (min 100 (80:ℚ)) > 50 then "medium" else "low"))
    ∧ (predict_survival none [] 0).confidence = "medium" :=
  ⟨⟨rfl, c7_confidence_amended.1 (fun _ => Except.ok 80) [] 80 0 rfl⟩,
    c7_confidence_amended.2.1 [] 0⟩

/-- C5: the stage decision table and the evaluation of the treatment
selection.  The stage estimate follows the claimed decision table exactly
(first conjunct, Scenario 3 in the second).  But the treatment list is
chosen by ordered Python substring tests, and `Stage I` is a substring of
`Likely Stage II` and of `Likely Stage II-III`, so every reachable stage
estimate other than `Clinical assessment needed` receives the Stage I
treatment list and the dedicated Stage II list is unreachable — the code
diverges from the claimed 3-way keying at the `Likely Stage II` estimate. -/
theorem c5_stage_table_and_treatments (responses : Responses) (conf : ℚ) :
    ((assess_malignant_clinical responses conf).stage_estimate =
      (if rget responses "tumor_size" "Not sure" = "Less than 2 cm" ∧
          rget responses "lymph_node_status" "Not sure" = "Negative" then "Likely Stage I"
       else if rget responses "tumor_size" "Not sure" = "2-5 cm" ∧
          rget responses "lymph_node_status" "Not sure" = "Negative" then "Likely Stage II"
       else if rget responses "lymph_node_status" "Not sure" = "Positive" then "Likely Stage II-III"
       else "Clinical assessment needed"))
    ∧ (assess_malignant_clinical
        [("tumor_size", "Greater than 5 cm"), ("lymph_node_status", "Positive")]
        (9/10)).stage_estimate = "Likely Stage II-III"
    ∧ (assess_malignant_clinical
        [("tumor_size", "2-5 cm"), ("lymph_node_status", "Negative")]
        (9/10)).stage_estimate = "Likely Stage II"
    ∧ get_malignant_treatments "Likely Stage I" =
        ["Surgery (Lumpectomy or Mastectomy)",
         "Radiation therapy typically after lumpectomy",
         "Possible chemotherapy based on tumor characteristics",
         "Hormone therapy if hormone receptor positive"]
    ∧ get_malignant_treatments "Likely Stage II" =
        ["Surgery (Lumpectomy or Mastectomy)",
         "Radiation therapy typically after lumpectomy",
         "Possible chemotherapy based on tumor characteristics",
         "Hormone therapy if hormone receptor positive"]
    ∧ get_malignant_treatments "Likely Stage II-III" =
        ["Surgery (Lumpectomy or Mastectomy)",
         "Radiation therapy typically after lumpectomy",
         "Possible chemotherapy based on tumor characteristics",
         "Hormone therapy if hormone receptor positive"]
    ∧ get_malignant_treatments "Likely Stage II" ≠
        ["Surgery (Lumpectomy with radiation or Mastectomy)",
         "Chemotherapy typically recommended",
         "Radiation therapy if lumpectomy performed",
         "Targeted therapy if HER2 positive",
         "Hormone therapy if hormone receptor positive"] := by
  refine ⟨?_, by decide, by decide, by decide, by decide, by decide, by decide⟩
  simp only [assess_malignant_clinical]
  split_ifs <;> rfl

/-! ## Helper lemmas for C2: the range of every mapping table -/

theorem age_mapping_get_mem (x : String) :
    age_mapping_get x ∈ ["Under 30", "30-39", "40-49", "50-59", "60-69", "70 and above"] := by
  unfold age_mapping_get
  split_ifs <;> decide

theorem menopausal_mapping_get_mem (x : String) :
    menopausal_mapping_get x ∈ ["Pre-menopausal", "Peri-menopausal", "Post-menopausal"] := by
  unfold menopausal_mapping_get
  split_ifs <;> decide

theorem stage_mapping_get_mem (x : String) :
    stage_mapping_get x ∈ ["Stage I", "Stage II", "Stage III", "Stage IV"] := by
  unfold stage_mapping_get
  split_ifs <;> decide

theorem tumor_size_mapping_get_mem (x : String) :
    tumor_size_mapping_get x ∈ ["Less than 2 cm", "2-5 cm", "Greater than 5 cm"] := by
  unfold tumor_size_mapping_get
  split_ifs <;> decide

theorem tumor_type_mapping_get_mem (x : String) :
    tumor_type_mapping_get x ∈
      ["Invasive Ductal Carcinoma (IDC)", "Invasive Lobular Carcinoma (ILC)",
       "Ductal Carcinoma In Situ (DCIS)", "Other"] := by
  unfold tumor_type_mapping_get
  split_ifs <;> decide

theorem tumor_grade_mapping_get_mem (x : String) :
    tumor_grade_mapping_get x ∈
      ["Grade 1 (Well-differentiated)", "Grade 2 (Moderately differentiated)",
       "Grade 3 (Poorly differentiated)"] := by
  unfold tumor_grade_mapping_get
  split_ifs <;> decide

theorem lymph_mapping_get_mem (x : String) :
    lymph_mapping_get x ∈ ["Positive", "Negative", "Unknown"] := by
  unfold lymph_mapping_get
  split_ifs <;> decide

theorem receptor_mapping_get_mem (x : String) :
    receptor_mapping_get x ∈ ["Positive", "Negative", "Unknown"] := by
  unfold receptor_mapping_get
  split_ifs <;> decide

theorem diagnosis_mapping_get_mem (x : String) :
    diagnosis_mapping_get x ∈
      ["Less than 1 month", "1-3 months", "3-6 months", "Over 6 months"] := by
  unfold diagnosis_mapping_get
  split_ifs <;> decide

theorem treatment_mapping_get_mem (x : String) :
    treatment_mapping_get x ∈
      ["Surgery", "Chemotherapy", "Radiation therapy", "Hormone therapy",
       "Targeted therapy", "None"] := by
  unfold treatment_mapping_get
  split_ifs <;> decide

theorem duration_mapping_get_mem (x : String) :
    duration_mapping_get x ∈
      ["Less than 3 months", "3-6 months", "6-12 months", "Over 12 months",
       "Not applicable"] := by
  unfold duration_mapping_get
  split_ifs <;> decide

theorem status_mapping_get_mem (x : String) :
    status_mapping_get x ∈ ["Ongoing", "Completed", "Not started"] := by
  unfold status_mapping_get
  split_ifs <;> decide

theorem followup_mapping_get_mem (x : String) :
    followup_mapping_get x ∈
      ["Every month", "Every 3 months", "Every 6 months", "Yearly", "Not regularly"] := by
  unfold followup_mapping_get
  split_ifs <;> decide

theorem activity_mapping_get_mem (x : String) :
    activity_mapping_get x ∈
      ["Sedentary (little or no exercise)",
       "Lightly active (light exercise/sports 1-3 days/week)",
       "Moderately active (moderate exercise/sports 3-5 days/week)",
       "Very active (hard exercise/sports 6-7 days a week)"] := by
  unfold activity_mapping_get
  split_ifs <;> decide

theorem bmi_mapping_get_mem (x : String) :
    bmi_mapping_get x ∈
      ["Below 18.5 (Underweight)", "18.5-24.9 (Normal weight)",
       "25-29.9 (Overweight)", "30 and above (Obese)"] := by
  unfold bmi_mapping_get
  split_ifs <;> decide

theorem health_mapping_get_mem (x : String) :
    health_mapping_get x ∈ ["Excellent", "Good", "Fair", "Poor"] := by
  unfold health_mapping_get
  split_ifs <;> decide

/-- C2 counterexample: an unrecognized `ethnicity` answer is copied into the
`Ethnicity` feature verbatim instead of resolving to the key's documented
vocabulary or to its `Unknown` default — the `Ethnicity`, `Marital Status`,
`Family History`, `Other Chronic Conditions`, `recurrence`, `smoking` and
`alcohol` keys are verbatim pass-throughs, not table lookups. -/
theorem c2_counterexample :
    rget (map_questionnaire_to_survival_features [("ethnicity", "ZZZ")]) "Ethnicity" "" = "ZZZ"
    ∧ "ZZZ" ∉ ethnicityVocabSpec ∧ ("ZZZ" : String) ≠ "Unknown" :=
  ⟨rfl, by decide, by decide⟩

/-- C2 (amended): for every response set the mapper returns exactly the
fixed 26 feature keys, in source order; every table-mapped key holds a
value from its documented vocabulary, with unrecognized or missing answers
resolving to the key's documented default; but the seven pass-through keys
(`Ethnicity`, `Marital Status`, `Family History`, `Other Chronic
Conditions`, recurrence, smoking, alcohol) copy the source answer verbatim,
applying their default only when the answer is missing. -/
theorem c2_mapper_amended (q : Responses) :
    ((map_questionnaire_to_survival_features q).map Prod.fst =
      ["Age (in years): ", "Ethnicity", "Marital Status",
       "Family History of Breast Cancer: ", "Menopausal Status: ",
       "Other Chronic Conditions (check all that apply): ",
       "Stage of Breast Cancer at Diagnosis (if applicable): ",
       "Tumor Size: ", "Tumor Type: ", "Tumor Grade: ", "Tumor Stage: ",
       "Lymph Node Status: ", "Estrogen Receptor (ER) Status: ",
       "Progesterone Receptor (PR) Status: ",
       "Human Epidermal Growth Factor Receptor 2 (HER2) Status: ",
       "Duration from Diagnosis to Commencement of Treatment: ",
       "Have you experienced a recurrence of breast cancer? ",
       "Type of Treatment Received (check all that apply): ",
       "Duration of Treatment: ", "Current Treatment Status: ",
       "How often do you attend follow-up appointments? ",
       "Do you smoke? ", "Do you consume alcohol? ",
       "Physical Activity Level: ", "Body Mass Index (BMI) (if known):",
       "Current Health Status (self-assessed): "])
    ∧ rget (map_questionnaire_to_survival_features q) "Age (in years): " "" ∈
        ["Under 30", "30-39", "40-49", "50-59", "60-69", "70 and above"]
    ∧ rget (map_questionnaire_to_survival_features q) "Menopausal Status: " "" ∈
        ["Pre-menopausal", "Peri-menopausal", "Post-menopausal"]
    ∧ rget (map_questionnaire_to_survival_features q)
        "Stage of Breast Cancer at Diagnosis (if applicable): " "" ∈
        ["Stage I", "Stage II", "Stage III", "Stage IV"]
    ∧ rget (map_questionnaire_to_survival_features q) "Tumor Size: " "" ∈
        ["Less than 2 cm", "2-5 cm", "Greater than 5 cm"]
    ∧ rget (map_questionnaire_to_survival_features q) "Tumor Type: " "" ∈
        ["Invasive Ductal Carcinoma (IDC)", "Invasive Lobular Carcinoma (ILC)",
         "Ductal Carcinoma In Situ (DCIS)", "Other"]
    ∧ rget (map_questionnaire_to_survival_features q) "Tumor Grade: " "" ∈
        ["Grade 1 (Well-differentiated)", "Grade 2 (Moderately differentiated)",
         "Grade 3 (Poorly differentiated)"]
    ∧ rget (map_questionnaire_to_survival_features q) "Tumor Stage: " "" ∈
        ["Stage I", "Stage II", "Stage III", "Stage IV"]
    ∧ rget (map_questionnaire_to_survival_features q) "Lymph Node Status: " "" ∈
        ["Positive", "Negative", "Unknown"]
    ∧ rget (map_questionnaire_to_survival_features q) "Estrogen Receptor (ER) Status: " "" ∈
        ["Positive", "Negative", "Unknown"]
    ∧ rget (map_questionnaire_to_survival_features q) "Progesterone Receptor (PR) Status: " "" ∈
        ["Positive", "Negative", "Unknown"]
    ∧ rget (map_questionnaire_to_survival_features q)
        "Human Epidermal Growth Factor Receptor 2 (HER2) Status: " "" ∈
        ["Positive", "Negative", "Unknown"]
    ∧ rget (map_questionnaire_to_survival_features q)
        "Duration from Diagnosis to Commencement of Treatment: " "" ∈
        ["Less than 1 month", "1-3 months", "3-6 months", "Over 6 months"]
    ∧ rget (map_questionnaire_to_survival_features q)
        "Type of Treatment Received (check all that apply): " "" ∈
        ["Surgery", "Chemotherapy", "Radiation therapy", "Hormone therapy",
         "Targeted therapy", "None"]
    ∧ rget (map_questionnaire_to_survival_features q) "Duration of Treatment: " "" ∈
        ["Less than 3 months", "3-6 months", "6-12 months", "Over 12 months",
         "Not applicable"]
    ∧ rget (map_questionnaire_to_survival_features q) "Current Treatment Status: " "" ∈
        ["Ongoing", "Completed", "Not started"]
    ∧ rget (map_questionnaire_to_survival_features q)
        "How often do you attend follow-up appointments? " "" ∈
        ["Every month", "Every 3 months", "Every 6 months", "Yearly", "Not regularly"]
    ∧ rget (map_questionnaire_to_survival_features q) "Physical Activity Level: " "" ∈
        ["Sedentary (little or no exercise)",
         "Lightly active (light exercise/sports 1-3 days/week)",
         "Moderately active (moderate exercise/sports 3-5 days/week)",
         "Very active (hard exercise/sports 6-7 days a week)"]
    ∧ rget (map_questionnaire_to_survival_features q) "Body Mass Index (BMI) (if known):" "" ∈
        ["Below 18.5 (Underweight)", "18.5-24.9 (Normal weight)",
         "25-29.9 (Overweight)", "30 and above (Obese)"]
    ∧ rget (map_questionnaire_to_survival_features q)
        "Current Health Status (self-assessed): " "" ∈
        ["Excellent", "Good", "Fair", "Poor"]
    ∧ rget (map_questionnaire_to_survival_features q) "Ethnicity" "" =
        rget q "ethnicity" "Unknown"
    ∧ rget (map_questionnaire_to_survival_features q) "Marital Status" "" =
        rget q "marital_status" "Unknown"
    ∧ rget (map_questionnaire_to_survival_features q)
        "Family History of Breast Cancer: " "" = rget q "family_history" "No"
    ∧ rget (map_questionnaire_to_survival_features q)
        "Other Chronic Conditions (check all that apply): " "" =
        rget q "other_conditions" "None"
    ∧ rget (map_questionnaire_to_survival_features q)
        "Have you experienced a recurrence of breast cancer? " "" =
        rget q "recurrence" "No"
    ∧ rget (map_questionnaire_to_survival_features q) "Do you smoke? " "" =
        rget q "smoking" "No"
    ∧ rget (map_questionnaire_to_survival_features q) "Do you consume alcohol? " "" =
        rget q "alcohol" "No" := by
  refine ⟨rfl,
    age_mapping_get_mem _, menopausal_mapping_get_mem _, stage_mapping_get_mem _,
    tumor_size_mapping_get_mem _, tumor_type_mapping_get_mem _,
    tumor_grade_mapping_get_mem _, stage_mapping_get_mem _, lymph_mapping_get_mem _,
    receptor_mapping_get_mem _, receptor_mapping_get_mem _, receptor_mapping_get_mem _,
    diagnosis_mapping_get_mem _, treatment_mapping_get_mem _, duration_mapping_get_mem _,
    status_mapping_get_mem _, followup_mapping_get_mem _, activity_mapping_get_mem _,
    bmi_mapping_get_mem _, health_mapping_get_mem _,
    rfl, rfl, rfl, ?_, rfl, rfl, rfl⟩
  show (if rget q "other_conditions" "None" = "None" then "None"
        else rget q "other_conditions" "None") = rget q "other_conditions" "None"
  split_ifs with h
  · exact h.symm
  · rfl

/-! ## Helper lemmas for C4 -/

theorem ageHit_eq_mem (a : String)
    (ha : a ∈ ["", "Under 30", "30-39", "40-49", "50-59", "60-69", "70 and above"]) :
    (pyContains a "50-59" || pyContains a "60-69" || pyContains a "70 and above") =
      decide (a ∈ ["50-59", "60-69", "70 and above"]) := by
  fin_cases ha <;> decide

theorem bmiScore_eq_options (b : String)
    (hb : b ∈ ["", "Below 18.5 (Underweight)", "18.5-24.9 (Normal weight)",
      "25-29.9 (Overweight)", "30 and above (Obese)"]) :
    (if pyContains b "30 and above" then (1:ℚ)
     else if pyContains b "25-29.9" then 1/2 else 0) =
    (if b = "30 and above (Obese)" then (1:ℚ)
     else if b = "25-29.9 (Overweight)" then 1/2 else 0) := by
  fin_cases hb <;> rfl

theorem benign_pairLevel_split (s : ℚ) :
    ((if s ≥ 3 then (("High" : String), ("red" : String))
      else if s ≥ 2 then ("Moderate", "orange") else ("Low", "green")).1 =
      (if s ≥ 3 then "High" else if s ≥ 2 then "Moderate" else "Low"))
    ∧ ((if s ≥ 3 then (("High" : String), ("red" : String))
      else if s ≥ 2 then ("Moderate", "orange") else ("Low", "green")).2 =
      (if s ≥ 3 then "red" else if s ≥ 2 then "orange" else "green")) := by
  constructor <;> (split_ifs <;> rfl)

/-- C4: for every benign-branch response set whose `age_group` and
`bmi_category` answers come from the benign questionnaire's option lists
(or are unanswered), the risk score equals the claimed weighted sum, the
risk level and color follow the >=3 / >=2 thresholds applied to that score,
the boundary scores 2.0, 3.0 and 1.5 give Moderate, High and Low
respectively, and the Scenario 1 responses give score 6 and level High. -/
theorem c4_benign_risk (responses : Responses) (conf : ℚ)
    (hage : rget responses "age_group" "" ∈
      ["", "Under 30", "30-39", "40-49", "50-59", "60-69", "70 and above"])
    (hbmi : rget responses "bmi_category" "" ∈
      ["", "Below 18.5 (Underweight)", "18.5-24.9 (Normal weight)",
       "25-29.9 (Overweight)", "30 and above (Obese)"]) :
    ((assess_benign_risk responses conf).risk_score =
      (if rget responses "family_history" "" = "Yes" then (2:ℚ) else 0) +
      (if rget responses "age_group" "" ∈ ["50-59", "60-69", "70 and above"] then 2 else 0) +
      (if rget responses "menopausal_status" "" = "Post-menopausal" then 1 else 0) +
      (if rget responses "bmi_category" "" = "30 and above (Obese)" then 1
       else if rget responses "bmi_category" "" = "25-29.9 (Overweight)" then 1/2 else 0))
    ∧ ((assess_benign_risk responses conf).risk_level =
      (if (assess_benign_risk responses conf).risk_score ≥ 3 then "High"
       else if (assess_benign_risk responses conf).risk_score ≥ 2 then "Moderate" else "Low"))
    ∧ ((assess_benign_risk responses conf).risk_color =
      (if (assess_benign_risk responses conf).risk_score ≥ 3 then "red"
       else if (assess_benign_risk responses conf).risk_score ≥ 2 then "orange" else "green"))
    ∧ (assess_benign_risk [("family_history", "Yes")] (1/2)).risk_score = 2
    ∧ (assess_benign_risk [("family_history", "Yes")] (1/2)).risk_level = "Moderate"
    ∧ (assess_benign_risk
        [("family_history", "Yes"), ("menopausal_status", "Post-menopausal")]
        (1/2)).risk_score = 3
    ∧ (assess_benign_risk
        [("family_history", "Yes"), ("menopausal_status", "Post-menopausal")]
        (1/2)).risk_level = "High"
    ∧ (assess_benign_risk
        [("menopausal_status", "Post-menopausal"), ("bmi_category", "25-29.9 (Overweight)")]
        (1/2)).risk_score = 3/2
    ∧ (assess_benign_risk
        [("menopausal_status", "Post-menopausal"), ("bmi_category", "25-29.9 (Overweight)")]
        (1/2)).risk_level = "Low"
    ∧ (assess_benign_risk scenario1Responses (1/2)).risk_score = 6
    ∧ (assess_benign_risk scenario1Responses (1/2)).risk_level = "High" := by
  have level2 : ∀ R : Responses, (assess_benign_risk R (1/2)).risk_level =
      (if (assess_benign_risk R (1/2)).risk_score ≥ 3 then "High"
       else if (assess_benign_risk R (1/2)).risk_score ≥ 2 then "Moderate" else "Low") :=
    fun R => (benign_pairLevel_split ((assess_benign_risk R (1/2)).risk_score)).1
  have hs1 : (assess_benign_risk [("family_history", "Yes")] (1/2)).risk_score = 2 := by
    have h : (assess_benign_risk [("family_history", "Yes")] (1/2)).risk_score =
        (2:ℚ) + 0 + 0 + 0 := rfl
    rw [h]; norm_num
  have hs2 : (assess_benign_risk
      [("family_history", "Yes"), ("menopausal_status", "Post-menopausal")]
      (1/2)).risk_score = 3 := by
    have h : (assess_benign_risk
        [("family_history", "Yes"), ("menopausal_status", "Post-menopausal")]
        (1/2)).risk_score = (2:ℚ) + 0 + 1 + 0 := rfl
    rw [h]; norm_num
  have hs3 : (assess_benign_risk
      [("menopausal_status", "Post-menopausal"), ("bmi_category", "25-29.9 (Overweight)")]
      (1/2)).risk_score = 3/2 := by
    have h : (assess_benign_risk
        [("menopausal_status", "Post-menopausal"), ("bmi_category", "25-29.9 (Overweight)")]
        (1/2)).risk_score = (0:ℚ) + 0 + 1 + 1/2 := rfl
    rw [h]; norm_num
  have hs4 : (assess_benign_risk scenario1Responses (1/2)).risk_score = 6 := by
    have h : (assess_benign_risk scenario1Responses (1/2)).risk_score =
        (2:ℚ) + 2 + 1 + 1 := rfl
    rw [h]; norm_num
  have hl1 : (assess_benign_risk [("family_history", "Yes")] (1/2)).risk_level = "Moderate" := by
    rw [level2, hs1, if_neg (by norm_num : ¬ (2:ℚ) ≥ 3), if_pos (by norm_num : (2:ℚ) ≥ 2)]
  have hl2 : (assess_benign_risk
      [("family_history", "Yes"), ("menopausal_status", "Post-menopausal")]
      (1/2)).risk_level = "High" := by
    rw [level2, hs2, if_pos (by norm_num : (3:ℚ) ≥ 3)]
  have hl3 : (assess_benign_risk
      [("menopausal_status", "Post-menopausal"), ("bmi_category", "25-29.9 (Overweight)")]
      (1/2)).risk_level = "Low" := by
    rw [level2, hs3, if_neg (by norm_num : ¬ (3/2:ℚ) ≥ 3), if_neg (by norm_num : ¬ (3/2:ℚ) ≥ 2)]
  have hl4 : (assess_benign_risk scenario1Responses (1/2)).risk_level = "High" := by
    rw [level2, hs4, if_pos (by norm_num : (6:ℚ) ≥ 3)]
  refine ⟨?_, ?_, ?_, hs1, hl1, hs2, hl2, hs3, hl3, hs4, hl4⟩
  · have hdef : (assess_benign_risk responses conf).risk_score =
        (if rget responses "family_history" "" = "Yes" then (2:ℚ) else 0) +
        (if (pyContains (rget responses "age_group" "") "50-59" ||
             pyContains (rget responses "age_group" "") "60-69" ||
             pyContains (rget responses "age_group" "") "70 and above") then (2:ℚ) else 0) +
        (if rget responses "menopausal_status" "" = "Post-menopausal" then (1:ℚ) else 0) +
        (if pyContains (rget responses "bmi_category" "") "30 and above" then (1:ℚ)
         else if pyContains (rget responses "bmi_category" "") "25-29.9" then 1/2 else 0) := rfl
    rw [hdef, ageHit_eq_mem _ hage, bmiScore_eq_options _ hbmi]
    simp only [decide_eq_true_eq]
  · exact (benign_pairLevel_split ((assess_benign_risk responses conf).risk_score)).1
  · exact (benign_pairLevel_split ((assess_benign_risk responses conf).risk_score)).2

/-- C4 witness: the risk-scoring theorem applied at the Scenario 1
responses with image confidence 0.5. -/
theorem c4_benign_risk_witness :
    (rget scenario1Responses "age_group" "" ∈
      ["", "Under 30", "30-39", "40-49", "50-59", "60-69", "70 and above"])
    ∧ (rget scenario1Responses "bmi_category" "" ∈
      ["", "Below 18.5 (Underweight)", "18.5-24.9 (Normal weight)",
       "25-29.9 (Overweight)", "30 and above (Obese)"])
    ∧ ((assess_benign_risk scenario1Responses (1/2)).risk_score =
      (if rget scenario1Responses "family_history" "" = "Yes" then (2:ℚ) else 0) +
      (if rget scenario1Responses "age_group" "" ∈ ["50-59", "60-69", "70 and above"] then 2 else 0) +
      (if rget scenario1Responses "menopausal_status" "" = "Post-menopausal" then 1 else 0) +
      (if rget scenario1Responses "bmi_category" "" = "30 and above (Obese)" then 1
       else if rget scenario1Responses "bmi_category" "" = "25-29.9 (Overweight)" then 1/2 else 0))
    ∧ ((assess_benign_risk scenario1Responses (1/2)).risk_level =
      (if (assess_benign_risk scenario1Responses (1/2)).risk_score ≥ 3 then "High"
       else if (assess_benign_risk scenario1Responses (1/2)).risk_score ≥ 2 then "Moderate"
       else "Low"))
    ∧ (assess_benign_risk scenario1Responses (1/2)).risk_score = 6
    ∧ (assess_benign_risk scenario1Responses (1/2)).risk_level = "High" := by
  have h := c4_benign_risk scenario1Responses (1/2) (by decide) (by decide)
  exact ⟨by decide, by decide, h.1, h.2.1, h.2.2.2.2.2.2.2.2.2.1, h.2.2.2.2.2.2.2.2.2.2⟩

/-! ## Helper lemmas for C3 -/

theorem isEmpty_false_of_ne_nil {α : Type} {l : List α} (h : l ≠ []) : l.isEmpty = false := by
  cases l with
  | nil => exact absurd rfl h
  | cons a t => rfl

theorem benign_risk_level_mem (responses : Responses) (conf : ℚ) :
    (["High", "Moderate", "Low"].contains
      (assess_benign_risk responses conf).risk_level) = true := by
  have h : (assess_benign_risk responses conf).risk_level =
      (if (assess_benign_risk responses conf).risk_score ≥ 3 then "High"
       else if (assess_benign_risk responses conf).risk_score ≥ 2 then "Moderate"
       else "Low") :=
    (benign_pairLevel_split ((assess_benign_risk responses conf).risk_score)).1
  rw [h]
  split_ifs <;> rfl

theorem benign_risk_color_mem (responses : Responses) (conf : ℚ) :
    (["red", "orange", "green"].contains
      (assess_benign_risk responses conf).risk_color) = true := by
  have h : (assess_benign_risk responses conf).risk_color =
      (if (assess_benign_risk responses conf).risk_score ≥ 3 then "red"
       else if (assess_benign_risk responses conf).risk_score ≥ 2 then "orange"
       else "green") :=
    (benign_pairLevel_split ((assess_benign_risk responses conf).risk_score)).2
  rw [h]
  split_ifs <;> rfl

theorem ifNilElse_isEmpty_false (l d : List String) (hd : d.isEmpty = false) :
    (if l = [] then d else l).isEmpty = false := by
  split_ifs with h
  · exact hd
  · exact isEmpty_false_of_ne_nil h

theorem lifestyle_recommendations_nonempty (responses : Responses) :
    (get_benign_lifestyle_recommendations responses).isEmpty = false := by
  simp only [get_benign_lifestyle_recommendations]
  exact ifNilElse_isEmpty_false _ _ rfl

theorem followup_recommendations_nonempty (risk_level : String) :
    (generate_benign_follow_up risk_level).recommendations.isEmpty = false := by
  unfold generate_benign_follow_up
  split_ifs <;> rfl

theorem malignant_stage_estimate_mem (responses : Responses) (conf : ℚ) :
    (["Likely Stage I", "Likely Stage II", "Likely Stage II-III",
      "Clinical assessment needed"].contains
      (assess_malignant_clinical responses conf).stage_estimate) = true := by
  simp only [assess_malignant_clinical]
  split_ifs <;> rfl

theorem malignant_treatments_nonempty (stage_estimate : String) :
    (get_malignant_treatments stage_estimate).isEmpty = false := by
  unfold get_malignant_treatments
  split_ifs <;> rfl

/-- C3 counterexample: an exception during malignant assembly is replaced by
the fixed malignant fallback report, but that fallback is not fully
populated in the sense of the data model: it carries no
`survival_prediction` member, unlike every successfully assembled malignant
report, so it is not a well-formed malignant report object. -/
theorem c3_counterexample :
    run_branch (Except.error "encoder failure") "malignant" = get_fallback_insights "malignant"
    ∧ (get_fallback_insights "malignant").survivalPredictionEntry = none
    ∧ wellFormedReport (get_fallback_insights "malignant") = false :=
  ⟨rfl, rfl, rfl⟩

/-- C3 (amended): any exception during assembly of either branch is caught
at the branch boundary and replaced wholesale by the fixed fallback report
for that label — never propagated, never partially constructed — and the
non-exception path always returns a well-formed report.  The benign
fallback is fully populated, but the malignant fallback omits the
`survival_prediction` member that every successfully assembled malignant
report carries (its survival figures appear only inside
`prognosis_indicators`). -/
theorem c3_error_policy_amended :
    (∀ e t : String, run_branch (Except.error e) t = get_fallback_insights t)
    ∧ wellFormedReport (get_fallback_insights "benign") = true
    ∧ (get_fallback_insights "malignant").survivalPredictionEntry = none
    ∧ (∀ (model_data : Option SurvivalModel) (t : String) (responses : Responses)
        (conf noise : ℚ),
        wellFormedReport (generate_insights model_data t responses conf noise) = true) := by
  refine ⟨fun e t => rfl, rfl, rfl, ?_⟩
  intro model_data t responses conf noise
  unfold generate_insights
  split_ifs with h
  · have hrep : generate_benign_insights responses conf =
        InsightReport.benign (assess_benign_risk responses conf)
          (get_benign_lifestyle_recommendations responses)
          (generate_benign_follow_up (assess_benign_risk responses conf).risk_level)
          benign_general_advice := rfl
    rw [hrep]
    simp only [wellFormedReport]
    rw [benign_risk_level_mem, benign_risk_color_mem, lifestyle_recommendations_nonempty,
      followup_recommendations_nonempty]
    rfl
  · have hrep : generate_malignant_insights model_data responses conf noise =
        InsightReport.malignant (assess_malignant_clinical responses conf)
          (get_malignant_treatments (assess_malignant_clinical responses conf).stage_estimate)
          (assess_malignant_prognosis responses
            (predict_survival model_data (map_questionnaire_to_survival_features responses) noise))
          (some (predict_survival model_data
            (map_questionnaire_to_survival_features responses) noise))
          (malignant_next_steps (predict_survival model_data
            (map_questionnaire_to_survival_features responses) noise)) := rfl
    rw [hrep]
    simp only [wellFormedReport]
    rw [malignant_stage_estimate_mem, malignant_treatments_nonempty]
    rfl
